import Mathlib

/-!
Verification of the Motion Path Creator add-on (`CreateMotionPath.py`).

The development shallowly embeds the add-on's scene-mutating operations:

* scene objects are records of the fields the add-on reads and writes
  (custom-property tags, parent link, location, scale, render/viewport
  hiding, display color, curve control points);
* Blender float vectors are modelled with rational coordinates;
* the per-frame animation evaluation (`frame_set` followed by reading
  `matrix_world.translation`, `data.vertices[i].co` or `pose.bones[n].head`)
  is modelled by frame-indexed functions carried by the active object;
* Python truthiness of the `is_vertex` / `is_bone` / `is_empty` dispatch
  parameters is preserved: `is_vertex` is a `Nat` tested against `0`
  (Python `False` equals `0`), `is_bone` a `String` tested against `""`.
-/

namespace MotionPath

/-- 3D vector with rational coordinates (stands for Blender float vectors). -/
structure Vec3 where
  x : ℚ
  y : ℚ
  z : ℚ
deriving DecidableEq, Repr

/-- 4D spline-point coordinate (x, y, z, w). -/
structure Vec4 where
  x : ℚ
  y : ℚ
  z : ℚ
  w : ℚ
deriving DecidableEq, Repr

/-- The Blender object types the add-on distinguishes. -/
inductive ObjType
  | MESH
  | ARMATURE
  | EMPTY
  | CURVE
  | SURFACE
  | FONT
  | OTHER
deriving DecidableEq, Repr

/-- A scene object, restricted to the fields the add-on reads or writes.
`sphereTagKey`/`sphereTagVal` model presence and truthiness of the
`"motion_path_addon_sphere"` custom property, `pathTagKey`/`pathTagVal`
those of `"is_motion_path"`.  `name` stands for the (unique) Blender
datablock name; `parent` holds the parent's name.  `points` are the curve
spline control points (empty for non-curve objects); `meshRadius` is the
radius the icosphere primitive was created with (0 for non-spheres). -/
structure Obj where
  name : Nat
  objType : ObjType
  sphereTagKey : Bool
  sphereTagVal : Bool
  pathTagKey : Bool
  pathTagVal : Bool
  parent : Option Nat
  location : Vec3
  scale : Vec3
  hideRender : Bool
  hideViewport : Bool
  color : Vec4
  points : List Vec4
  meshRadius : ℚ
  shadeSmooth : Bool
deriving DecidableEq, Repr

/-- Truthiness test `"motion_path_addon_sphere" in obj and obj["motion_path_addon_sphere"]`. -/
def isMarkerTagged (o : Obj) : Bool :=
  o.sphereTagKey && o.sphereTagVal

/-- Add-on settings (`MotionPathSettings`). -/
structure Settings where
  use_timeline : Bool
  start_frame : Int
  end_frame : Int
  icosphere_radius : ℚ
  icosphere_color : Vec3
deriving Repr

/-- Handler `update_icospheres` (registered on `depsgraph_update_post`): every object
whose marker tag is present and truthy gets its scale set to the current
radius setting, uniformly on all three axes; nothing else changes. -/
def update_icospheres (radius : ℚ) (objs : List Obj) : List Obj :=
  objs.map fun o =>
    if isMarkerTagged o then
      { o with scale := ⟨radius, radius, radius⟩ }
    else o

/-- Function `create_base_icosphere`: the template sphere.  The source calls
`primitive_ico_sphere_add(subdivisions=2, radius=0.2, location=(0,0,0))`
with the radius hardcoded to `0.2` — the `radius` argument of the Python
function is never used.  The display color is `(color[0], color[1],
color[2], 1.0)`, `hide_render` is set, the marker tag is set to `True`,
and shading is set to smooth. -/
def create_base_icosphere (fresh : Nat) (radius : ℚ) (color : Vec3) : Obj :=
  { name := fresh
    objType := ObjType.MESH
    sphereTagKey := true
    sphereTagVal := true
    pathTagKey := false
    pathTagVal := false
    parent := none
    location := ⟨0, 0, 0⟩
    scale := ⟨1, 1, 1⟩
    hideRender := true
    hideViewport := false
    color := ⟨color.x, color.y, color.z, 1⟩
    points := []
    meshRadius := 2/10
    shadeSmooth := true }

/-! ## Cleanup (`CleanUpOperator.execute`) -/

/-- First collection pass: `icospheres_to_delete`, the objects whose marker
tag is present and truthy. -/
def collectSpheres (objs : List Obj) : List Obj :=
  objs.filter isMarkerTagged

/-- Resolution of `obj.parent` in the scene (the parent link is stored by name). -/
def parentLookup (objs : List Obj) (o : Obj) : Option Obj :=
  match o.parent with
  | some p => objs.find? fun q => q.name == p
  | none => none

/-- Second collection pass: `curves_to_delete`, the parents of collected
markers on which the `'is_motion_path'` key is present (the source checks
key presence only, not the value's truthiness). -/
def collectCurves (objs : List Obj) : List Obj :=
  (collectSpheres objs).filterMap fun o =>
    match parentLookup objs o with
    | some q => if q.pathTagKey then some q else none
    | none => none

/-- Removal (`bpy.data.objects.remove`) of the object with the given name. -/
def removeByName (objs : List Obj) (n : Nat) : List Obj :=
  objs.filter fun q => q.name != n

/-- Operator `CleanUpOperator.execute`: collect both sets up front, delete every
collected icosphere, then delete every collected curve, each curve deletion
guarded by an existence check (`if curve.name in bpy.data.objects`). -/
def cleanupExecute (objs : List Obj) : List Obj :=
  let spheres := collectSpheres objs
  let curves := collectCurves objs
  let afterSpheres := spheres.foldl (fun acc o => removeByName acc o.name) objs
  curves.foldl
    (fun acc c =>
      if acc.any (fun q => q.name == c.name) then removeByName acc c.name else acc)
    afterSpheres

/-- The cleanup criterion for curves, as the spec states it: the object
carries the motion-path tag and some truthy-tagged marker in the scene is
parented to it. -/
def collectedAsParent (objs : List Obj) (c : Obj) : Bool :=
  c.pathTagKey && objs.any fun m => isMarkerTagged m && m.parent == some c.name

/-! ## Sampling (`create_motion_path`) -/

/-- The active object handed to a sampling operator, together with the
frame-indexed animation data the sampling loop reads after `frame_set`:
`translation f` is `matrix_world.translation` at frame `f`, `boneHead n f`
is `pose.bones[n].head` at frame `f`.  `vertexCo i` is
`data.vertices[i].co` (mesh rest data, not frame dependent), `vertSelect`
the per-vertex selection flags, and `matrix_world` the world matrix
captured at operator-invocation time and passed to `create_motion_path`,
modelled as the affine map it applies. -/
structure ActiveObject where
  objType : ObjType
  translation : Int → Vec3
  matrix_world : Vec3 → Vec3
  vertexCo : Nat → Vec3
  vertSelect : List Bool
  boneHead : String → Int → Vec3

/-- The loop body's position computation: the `if is_empty / elif
is_vertex / elif is_bone / else` dispatch of `create_motion_path`, with
Python truthiness (`is_vertex` truthy iff nonzero — Python `False` is `0`
— and `is_bone` truthy iff nonempty).  `none` models `continue` (the
frame is skipped). -/
def sampleAt (o : ActiveObject) (world_matrix : Vec3 → Vec3) (is_vertex : Nat)
    (is_bone : String) (is_empty : Bool) (frame : Int) : Option Vec3 :=
  if is_empty then
    some (o.translation frame)
  else if is_vertex ≠ 0 then
    if o.objType = ObjType.MESH then some (world_matrix (o.vertexCo is_vertex))
    else none
  else if is_bone ≠ "" then
    if o.objType = ObjType.ARMATURE then some (world_matrix (o.boneHead is_bone frame))
    else none
  else
    some (o.translation frame)

/-- Spline-point coordinate `(position[0], position[1], position[2], 1)`. -/
def vec4Of (v : Vec3) : Vec4 :=
  ⟨v.x, v.y, v.z, 1⟩

/-- Instance creation, `base_sphere.copy()` with its own data copy: the copy keeps the
template's fields (tag, hide_render, color, mesh data), then `location`
is set to the sampled position and `parent` to the curve object. -/
def sphereInstance (base : Obj) (fresh : Nat) (curveName : Nat) (pos : Vec3) : Obj :=
  { base with name := fresh, location := pos, parent := some curveName }

/-- The mutable state of the sampling loop: the spline's points, the
marker instances linked so far, and the fresh-name supply. -/
structure LoopState where
  points : List Vec4
  instances : List Obj
  fresh : Nat
deriving DecidableEq, Repr

/-- One iteration of the `for frame in range(start_frame, end_frame + 1)`
loop: sample, and unless the frame is skipped, write
`polyline.points[frame - start_frame].co` and link one marker instance. -/
def pathStep (o : ActiveObject) (world_matrix : Vec3 → Vec3) (is_vertex : Nat)
    (is_bone : String) (is_empty : Bool) (base : Obj) (curveName : Nat)
    (start_frame : Int) (st : LoopState) (frame : Int) : LoopState :=
  match sampleAt o world_matrix is_vertex is_bone is_empty frame with
  | none => st
  | some pos =>
    { points := st.points.set (frame - start_frame).toNat (vec4Of pos)
      instances := st.instances ++ [sphereInstance base st.fresh curveName pos]
      fresh := st.fresh + 1 }

/-- Python `range(a, b + 1)` over integers. -/
def intRange (a b : Int) : List Int :=
  (List.range (b + 1 - a).toNat).map fun i : Nat => a + (i : Int)

/-- The result of `create_motion_path`: the objects it linked into the
scene (the template in its final, viewport-hidden state, the curve object,
and the marker instances in creation order) and the next fresh name. -/
structure CMPOut where
  baseSphere : Obj
  curveObj : Obj
  instances : List Obj
  nextFresh : Nat
deriving DecidableEq, Repr

/-- The objects `create_motion_path` linked, in linking order. -/
def CMPOut.linkedObjects (r : CMPOut) : List Obj :=
  r.baseSphere :: r.curveObj :: r.instances

/-- Function `create_motion_path`.  The poly spline starts with one point and
`points.add(end_frame - start_frame)` adds that many more (a negative
count is clamped to zero), so the spline holds
`1 + max(end_frame - start_frame, 0)` points, default-initialised; the
loop then overwrites point `frame - start_frame` per sampled frame.
After the loop the template is hidden in the viewport (`hide_set(True)`). -/
def create_motion_path (fresh : Nat) (settings : Settings) (obj : ActiveObject)
    (start_frame end_frame : Int) (world_matrix : Vec3 → Vec3)
    (is_vertex : Nat) (is_bone : String) (is_empty : Bool) : CMPOut :=
  let base := create_base_icosphere fresh settings.icosphere_radius settings.icosphere_color
  let curveName := fresh + 1
  let initPoints : List Vec4 := List.replicate (1 + (end_frame - start_frame).toNat) ⟨0, 0, 0, 1⟩
  let final := (intRange start_frame end_frame).foldl
    (pathStep obj world_matrix is_vertex is_bone is_empty base curveName start_frame)
    ⟨initPoints, [], fresh + 2⟩
  { baseSphere := { base with hideViewport := true }
    curveObj :=
      { name := curveName
        objType := ObjType.CURVE
        sphereTagKey := false
        sphereTagVal := false
        pathTagKey := true
        pathTagVal := true
        parent := none
        location := ⟨0, 0, 0⟩
        scale := ⟨1, 1, 1⟩
        hideRender := false
        hideViewport := false
        color := ⟨1, 1, 1, 1⟩
        points := final.points
        meshRadius := 0
        shadeSmooth := false }
    instances := final.instances
    nextFresh := final.fresh }

/-! ## Viewport shading (`set_viewport_shading_to_object_color`) -/

/-- A 3D-view space's shading mode and color mode. -/
structure SpaceShading where
  shadingType : String
  color_type : String
deriving DecidableEq, Repr

/-- A space inside a screen area. -/
structure Space where
  sptype : String
  shading : SpaceShading
deriving DecidableEq, Repr

/-- A screen area. -/
structure Area where
  atype : String
  spaces : List Space
deriving DecidableEq, Repr

/-- The inner `for space in area.spaces` loop: the first `VIEW_3D` space
gets shading `SOLID` with color type `OBJECT` and the loop breaks; spaces
after it are untouched. -/
def setFirstView3DSpace : List Space → List Space
  | [] => []
  | s :: rest =>
    if s.sptype = "VIEW_3D" then
      { s with shading := ⟨"SOLID", "OBJECT"⟩ } :: rest
    else
      s :: setFirstView3DSpace rest

/-- Function `set_viewport_shading_to_object_color`: applied to every `VIEW_3D`
area of the screen. -/
def set_viewport_shading_to_object_color (areas : List Area) : List Area :=
  areas.map fun a =>
    if a.atype = "VIEW_3D" then { a with spaces := setFirstView3DSpace a.spaces } else a

/-! ## Operators -/

/-- Report (`self.report`): an `INFO` or `ERROR` status string. -/
inductive Status
  | info (msg : String)
  | error (msg : String)
deriving DecidableEq, Repr

/-- Whether the reported status is an error. -/
def Status.isError : Status → Bool
  | .error _ => true
  | .info _ => false

/-- The ambient context an operator reads: active object, active pose
bone (by name), the timeline bounds, the add-on settings, the scene's
objects and the screen areas. -/
structure Context where
  active_object : Option ActiveObject
  active_pose_bone : Option String
  scene_frame_start : Int
  scene_frame_end : Int
  settings : Settings
  scene_objects : List Obj
  screen_areas : List Area

/-- Function `get_frame_range`. -/
def get_frame_range (ctx : Context) : Int × Int :=
  if ctx.settings.use_timeline then (ctx.scene_frame_start, ctx.scene_frame_end)
  else (ctx.settings.start_frame, ctx.settings.end_frame)

/-- What an operator's `execute` leaves behind: the scene's objects, the
next fresh name, the reported status, and the screen areas after the
viewport-shading side effect. -/
structure ExecResult where
  scene : List Obj
  nextFresh : Nat
  status : Status
  areas : List Area

/-- Operator `BonePathOperator.execute`: requires an active object of armature
type and an active pose bone; on mismatch reports an error and mutates
nothing; either way the viewport shading is switched. -/
def bonePathExecute (ctx : Context) (fresh : Nat) : ExecResult :=
  let core : List Obj × Nat × Status :=
    match ctx.active_object, ctx.active_pose_bone with
    | some armature, some bone =>
      if armature.objType = ObjType.ARMATURE then
        let r := get_frame_range ctx
        let out := create_motion_path fresh ctx.settings armature r.1 r.2
          armature.matrix_world 0 bone false
        (ctx.scene_objects ++ out.linkedObjects, out.nextFresh,
          Status.info "Bone motion path created")
      else
        (ctx.scene_objects, fresh, Status.error "No active bone in selected armature")
    | _, _ =>
      (ctx.scene_objects, fresh, Status.error "No active bone in selected armature")
  { scene := core.1
    nextFresh := core.2.1
    status := core.2.2
    areas := set_viewport_shading_to_object_color ctx.screen_areas }

/-- Selection lookup `selected_verts[0].index`: the index of the first selected vertex. -/
def firstSelectedIndex (flags : List Bool) : Option Nat :=
  flags.findIdx? fun b => b

/-- Operator `VertexPathOperator.execute`: requires an active mesh object with a
selected vertex; passes the first selected vertex's index as `is_vertex`.
(The edit/object mode toggles around the call only switch the UI
interaction mode and touch no scene objects, so they are not modelled.) -/
def vertexPathExecute (ctx : Context) (fresh : Nat) : ExecResult :=
  let core : List Obj × Nat × Status :=
    match ctx.active_object with
    | some obj =>
      if obj.objType = ObjType.MESH then
        match firstSelectedIndex obj.vertSelect with
        | some idx =>
          let r := get_frame_range ctx
          let out := create_motion_path fresh ctx.settings obj r.1 r.2
            obj.matrix_world idx "" false
          (ctx.scene_objects ++ out.linkedObjects, out.nextFresh,
            Status.info "Vertex motion path created")
        | none =>
          (ctx.scene_objects, fresh, Status.error "No vertex selected")
      else
        (ctx.scene_objects, fresh, Status.error "No mesh in edit mode selected")
    | none =>
      (ctx.scene_objects, fresh, Status.error "No mesh in edit mode selected")
  { scene := core.1
    nextFresh := core.2.1
    status := core.2.2
    areas := set_viewport_shading_to_object_color ctx.screen_areas }

/-- Operator `EmptyPathOperator.execute`: requires an active object of empty type.
The source passes the truthy string `"location"` in the `is_vertex`
position; it is shadowed by `is_empty=True`, which the loop tests first,
so any truthy stand-in (here `1`) is equivalent. -/
def emptyPathExecute (ctx : Context) (fresh : Nat) : ExecResult :=
  let core : List Obj × Nat × Status :=
    match ctx.active_object with
    | some obj =>
      if obj.objType = ObjType.EMPTY then
        let r := get_frame_range ctx
        let out := create_motion_path fresh ctx.settings obj r.1 r.2
          obj.matrix_world 1 "" true
        (ctx.scene_objects ++ out.linkedObjects, out.nextFresh,
          Status.info "Empty motion path created")
      else
        (ctx.scene_objects, fresh, Status.error "No empty object selected")
    | none =>
      (ctx.scene_objects, fresh, Status.error "No empty object selected")
  { scene := core.1
    nextFresh := core.2.1
    status := core.2.2
    areas := set_viewport_shading_to_object_color ctx.screen_areas }

/-- Operator `ObjectPathOperator.execute`: requires an active object whose type is
one of MESH, CURVE, SURFACE, FONT. -/
def objectPathExecute (ctx : Context) (fresh : Nat) : ExecResult :=
  let core : List Obj × Nat × Status :=
    match ctx.active_object with
    | some obj =>
      if obj.objType ∈ [ObjType.MESH, ObjType.CURVE, ObjType.SURFACE, ObjType.FONT] then
        let r := get_frame_range ctx
        let out := create_motion_path fresh ctx.settings obj r.1 r.2
          obj.matrix_world 0 "" false
        (ctx.scene_objects ++ out.linkedObjects, out.nextFresh,
          Status.info "Object motion path created")
      else
        (ctx.scene_objects, fresh, Status.error "No suitable object selected")
    | none =>
      (ctx.scene_objects, fresh, Status.error "No suitable object selected")
  { scene := core.1
    nextFresh := core.2.1
    status := core.2.2
    areas := set_viewport_shading_to_object_color ctx.screen_areas }

/-- The bone operator's selection requirement, as the code tests it. -/
def boneSelectionOk (ctx : Context) : Bool :=
  match ctx.active_object with
  | some a => (a.objType == ObjType.ARMATURE) && ctx.active_pose_bone.isSome
  | none => false

/-- The vertex operator's selection requirement, as the code tests it. -/
def vertexSelectionOk (ctx : Context) : Bool :=
  match ctx.active_object with
  | some a => (a.objType == ObjType.MESH) && (firstSelectedIndex a.vertSelect).isSome
  | none => false

/-- The empty operator's selection requirement, as the code tests it. -/
def emptySelectionOk (ctx : Context) : Bool :=
  match ctx.active_object with
  | some a => a.objType == ObjType.EMPTY
  | none => false

/-- The object operator's selection requirement, as the code tests it. -/
def objectSelectionOk (ctx : Context) : Bool :=
  match ctx.active_object with
  | some a =>
    decide (a.objType ∈ [ObjType.MESH, ObjType.CURVE, ObjType.SURFACE, ObjType.FONT])
  | none => false

/-! ## Concrete fixtures used by witnesses and counterexamples -/

/-- Settings with integer-valued rationals, so kernel evaluation stays easy. -/
def settingsFixture : Settings :=
  { use_timeline := true
    start_frame := 1
    end_frame := 250
    icosphere_radius := 1
    icosphere_color := ⟨1, 0, 1⟩ }

/-- A marker-tagged scene object. -/
def markerFixture : Obj :=
  { name := 1
    objType := ObjType.MESH
    sphereTagKey := true
    sphereTagVal := true
    pathTagKey := false
    pathTagVal := false
    parent := some 2
    location := ⟨4, 5, 6⟩
    scale := ⟨1, 1, 1⟩
    hideRender := true
    hideViewport := false
    color := ⟨1, 1, 1, 1⟩
    points := []
    meshRadius := 0
    shadeSmooth := false }

/-- A path-tagged curve object. -/
def curveFixture : Obj :=
  { name := 2
    objType := ObjType.CURVE
    sphereTagKey := false
    sphereTagVal := false
    pathTagKey := true
    pathTagVal := true
    parent := none
    location := ⟨0, 0, 0⟩
    scale := ⟨1, 1, 1⟩
    hideRender := false
    hideViewport := false
    color := ⟨1, 1, 1, 1⟩
    points := [⟨4, 5, 6, 1⟩]
    meshRadius := 0
    shadeSmooth := false }

/-- An untagged bystander object. -/
def plainFixture : Obj :=
  { name := 3
    objType := ObjType.MESH
    sphereTagKey := false
    sphereTagVal := false
    pathTagKey := false
    pathTagVal := false
    parent := none
    location := ⟨7, 8, 9⟩
    scale := ⟨1, 1, 1⟩
    hideRender := false
    hideViewport := false
    color := ⟨1, 1, 1, 1⟩
    points := []
    meshRadius := 0
    shadeSmooth := false }

/-- A context with no active object (every selection requirement fails). -/
def noSelectionCtx : Context :=
  { active_object := none
    active_pose_bone := none
    scene_frame_start := 1
    scene_frame_end := 3
    settings := settingsFixture
    scene_objects := [plainFixture]
    screen_areas := [⟨"VIEW_3D", [⟨"VIEW_3D", ⟨"WIREFRAME", "MATERIAL"⟩⟩]⟩] }

/-! ## C7: the reconciliation pass rescales tagged markers and nothing else -/

/-- C7: on a scene-update notification, `update_icospheres` sets the scale of
every object carrying a truthy marker tag to the current radius setting,
uniformly, and changes no other field of any object (in particular marker
locations and curve control points are untouched); untagged objects are
returned unchanged. -/
theorem rescale_sets_scale_only (radius : ℚ) (objs : List Obj) :
    (update_icospheres radius objs).length = objs.length ∧
    ∀ i : Nat, ∀ hi : i < objs.length,
      (isMarkerTagged (objs.get ⟨i, hi⟩) = true →
        (update_icospheres radius objs)[i]? =
          some { objs.get ⟨i, hi⟩ with scale := ⟨radius, radius, radius⟩ }) ∧
      (isMarkerTagged (objs.get ⟨i, hi⟩) = false →
        (update_icospheres radius objs)[i]? = some (objs.get ⟨i, hi⟩)) := by
  refine ⟨by simp [update_icospheres], ?_⟩
  intro i hi
  constructor
  · intro ht
    have ht2 : isMarkerTagged objs[i] = true := ht
    simp [update_icospheres, List.getElem?_map, List.getElem?_eq_getElem hi, ht2]
  · intro hf
    have hf2 : isMarkerTagged objs[i] = false := hf
    simp [update_icospheres, List.getElem?_map, List.getElem?_eq_getElem hi, hf2]

/-- Witness for C7 at a concrete scene of one tagged marker. -/
theorem rescale_sets_scale_only_witness :
    (0 : Nat) < [markerFixture].length ∧
    isMarkerTagged markerFixture = true ∧
    (update_icospheres 3 [markerFixture])[0]? =
      some { markerFixture with scale := ⟨3, 3, 3⟩ } :=
  ⟨by decide, by decide,
    ((rescale_sets_scale_only 3 [markerFixture]).2 0 (by decide)).1 (by decide)⟩

/-! ## C8: the marker template -/

/-- C8: evaluation of `create_base_icosphere` at radius `1/2`.  The template
is hidden from render, carries the marker tag, has display color
`(c.r, c.g, c.b, 1.0)` and smooth shading — but its size is the hardcoded
`0.2`, not the configured radius `1/2`: the `radius` argument is ignored. -/
theorem base_icosphere_ignores_radius :
    (create_base_icosphere 0 (1/2) ⟨1, 0, 6/10⟩).meshRadius = 2/10 ∧
    (2 : ℚ)/10 ≠ 1/2 ∧
    (create_base_icosphere 0 (1/2) ⟨1, 0, 6/10⟩).hideRender = true ∧
    (create_base_icosphere 0 (1/2) ⟨1, 0, 6/10⟩).color = ⟨1, 0, 6/10, 1⟩ ∧
    isMarkerTagged (create_base_icosphere 0 (1/2) ⟨1, 0, 6/10⟩) = true ∧
    (create_base_icosphere 0 (1/2) ⟨1, 0, 6/10⟩).shadeSmooth = true :=
  ⟨rfl, by norm_num, rfl, rfl, rfl, rfl⟩

/-! ## C3: selection mismatch mutates nothing and reports an error -/

/-- Helper: the bone entry point on a selection mismatch. -/
lemma bonePathExecute_mismatch (ctx : Context) (fresh : Nat)
    (h : boneSelectionOk ctx = false) :
    (bonePathExecute ctx fresh).scene = ctx.scene_objects ∧
    (bonePathExecute ctx fresh).status =
      Status.error "No active bone in selected armature" := by
  unfold boneSelectionOk at h
  unfold bonePathExecute
  cases hao : ctx.active_object with
  | none =>
    cases hb : ctx.active_pose_bone <;> simp [hao, hb]
  | some a =>
    cases hb : ctx.active_pose_bone with
    | none => simp [hao, hb]
    | some bname =>
      rw [hao, hb] at h
      simp only [Option.isSome_some, Bool.and_true, beq_eq_false_iff_ne, ne_eq] at h
      simp [hao, hb, h]

/-- Helper: the vertex entry point on a selection mismatch. -/
lemma vertexPathExecute_mismatch (ctx : Context) (fresh : Nat)
    (h : vertexSelectionOk ctx = false) :
    (vertexPathExecute ctx fresh).scene = ctx.scene_objects ∧
    (vertexPathExecute ctx fresh).status.isError = true := by
  unfold vertexSelectionOk at h
  unfold vertexPathExecute
  cases hao : ctx.active_object with
  | none => simp [hao, Status.isError]
  | some a =>
    rw [hao] at h
    by_cases hm : a.objType = ObjType.MESH
    · cases hfs : firstSelectedIndex a.vertSelect with
      | some idx =>
        simp [hm, hfs] at h
      | none => simp [hao, hm, hfs, Status.isError]
    · simp [hao, hm, Status.isError]

/-- Helper: the empty entry point on a selection mismatch. -/
lemma emptyPathExecute_mismatch (ctx : Context) (fresh : Nat)
    (h : emptySelectionOk ctx = false) :
    (emptyPathExecute ctx fresh).scene = ctx.scene_objects ∧
    (emptyPathExecute ctx fresh).status =
      Status.error "No empty object selected" := by
  unfold emptySelectionOk at h
  unfold emptyPathExecute
  cases hao : ctx.active_object with
  | none => simp [hao]
  | some a =>
    rw [hao] at h
    simp only [beq_eq_false_iff_ne, ne_eq] at h
    simp [hao, h]

/-- Helper: the object entry point on a selection mismatch. -/
lemma objectPathExecute_mismatch (ctx : Context) (fresh : Nat)
    (h : objectSelectionOk ctx = false) :
    (objectPathExecute ctx fresh).scene = ctx.scene_objects ∧
    (objectPathExecute ctx fresh).status =
      Status.error "No suitable object selected" := by
  unfold objectSelectionOk at h
  unfold objectPathExecute
  cases hao : ctx.active_object with
  | none => simp [hao]
  | some a =>
    rw [hao] at h
    simp only [decide_eq_false_iff_not] at h
    simp [hao, h]

/-- C3: for each of the four sampling entry points, when the active selection
does not meet the kind's requirement the scene's object list is unchanged
and the reported status is the corresponding error. -/
theorem selection_mismatch_no_mutation (ctx : Context) (fresh : Nat) :
    (boneSelectionOk ctx = false →
      (bonePathExecute ctx fresh).scene = ctx.scene_objects ∧
      (bonePathExecute ctx fresh).status =
        Status.error "No active bone in selected armature") ∧
    (vertexSelectionOk ctx = false →
      (vertexPathExecute ctx fresh).scene = ctx.scene_objects ∧
      (vertexPathExecute ctx fresh).status.isError = true) ∧
    (emptySelectionOk ctx = false →
      (emptyPathExecute ctx fresh).scene = ctx.scene_objects ∧
      (emptyPathExecute ctx fresh).status =
        Status.error "No empty object selected") ∧
    (objectSelectionOk ctx = false →
      (objectPathExecute ctx fresh).scene = ctx.scene_objects ∧
      (objectPathExecute ctx fresh).status =
        Status.error "No suitable object selected") :=
  ⟨bonePathExecute_mismatch ctx fresh, vertexPathExecute_mismatch ctx fresh,
    emptyPathExecute_mismatch ctx fresh, objectPathExecute_mismatch ctx fresh⟩

/-- Witness for C3: no active object, all four requirements fail, nothing is
added and each operator reports its error. -/
theorem selection_mismatch_no_mutation_witness :
    boneSelectionOk noSelectionCtx = false ∧
    vertexSelectionOk noSelectionCtx = false ∧
    emptySelectionOk noSelectionCtx = false ∧
    objectSelectionOk noSelectionCtx = false ∧
    ((bonePathExecute noSelectionCtx 0).scene = noSelectionCtx.scene_objects ∧
      (bonePathExecute noSelectionCtx 0).status =
        Status.error "No active bone in selected armature") ∧
    ((vertexPathExecute noSelectionCtx 0).scene = noSelectionCtx.scene_objects ∧
      (vertexPathExecute noSelectionCtx 0).status.isError = true) ∧
    ((emptyPathExecute noSelectionCtx 0).scene = noSelectionCtx.scene_objects ∧
      (emptyPathExecute noSelectionCtx 0).status =
        Status.error "No empty object selected") ∧
    ((objectPathExecute noSelectionCtx 0).scene = noSelectionCtx.scene_objects ∧
      (objectPathExecute noSelectionCtx 0).status =
        Status.error "No suitable object selected") :=
  ⟨rfl, rfl, rfl, rfl,
    (selection_mismatch_no_mutation noSelectionCtx 0).1 rfl,
    (selection_mismatch_no_mutation noSelectionCtx 0).2.1 rfl,
    (selection_mismatch_no_mutation noSelectionCtx 0).2.2.1 rfl,
    (selection_mismatch_no_mutation noSelectionCtx 0).2.2.2 rfl⟩

/-! ## C9: viewport shading is switched even on the rejected path -/

/-- Helper: in a space list containing a VIEW_3D space, the shading pass
leaves the first VIEW_3D space with SOLID shading and OBJECT color. -/
lemma find_setFirstView3DSpace (l : List Space)
    (h : l.any (fun s => s.sptype == "VIEW_3D") = true) :
    ((setFirstView3DSpace l).find? fun s => s.sptype == "VIEW_3D").map Space.shading
      = some ⟨"SOLID", "OBJECT"⟩ := by
  induction l with
  | nil => simp at h
  | cons s rest ih =>
    by_cases hs : s.sptype = "VIEW_3D"
    · simp [setFirstView3DSpace, hs, List.find?_cons_of_pos]
    · have h2 : rest.any (fun s => s.sptype == "VIEW_3D") = true := by
        rcases List.any_eq_true.mp h with ⟨x, hx, hpx⟩
        rcases List.mem_cons.mp hx with rfl | hx2
        · exact absurd (by simpa using hpx) hs
        · exact List.any_eq_true.mpr ⟨x, hx2, hpx⟩
      have hneg : (s.sptype == "VIEW_3D") = false := by
        simpa using hs
      simp [setFirstView3DSpace, hs, List.find?_cons, hneg, ih h2]

/-- C9: a sampling entry point that ends rejected (here the bone entry, on a
selection mismatch) still switches the 3D-viewport shading: the resulting
screen areas equal the shading pass applied to the input areas — as they
do for all four operators unconditionally, success or failure — and in
every VIEW_3D area holding a VIEW_3D space, the first such space ends with
SOLID shading and OBJECT color mode. -/
theorem rejected_still_sets_shading (ctx : Context) (fresh : Nat)
    (h : boneSelectionOk ctx = false) :
    (bonePathExecute ctx fresh).status.isError = true ∧
    (bonePathExecute ctx fresh).areas
      = set_viewport_shading_to_object_color ctx.screen_areas ∧
    (vertexPathExecute ctx fresh).areas
      = set_viewport_shading_to_object_color ctx.screen_areas ∧
    (emptyPathExecute ctx fresh).areas
      = set_viewport_shading_to_object_color ctx.screen_areas ∧
    (objectPathExecute ctx fresh).areas
      = set_viewport_shading_to_object_color ctx.screen_areas ∧
    ∀ i : Nat, ∀ a : Area, ctx.screen_areas[i]? = some a → a.atype = "VIEW_3D" →
      a.spaces.any (fun s => s.sptype == "VIEW_3D") = true →
      ((bonePathExecute ctx fresh).areas[i]?).map
          (fun a2 => (a2.spaces.find? fun s => s.sptype == "VIEW_3D").map Space.shading)
        = some (some ⟨"SOLID", "OBJECT"⟩) := by
  refine ⟨?_, rfl, rfl, rfl, rfl, ?_⟩
  · rw [(bonePathExecute_mismatch ctx fresh h).2]
    rfl
  · intro i a hia hv hany
    have hareas : (bonePathExecute ctx fresh).areas
        = set_viewport_shading_to_object_color ctx.screen_areas := rfl
    rw [hareas]
    simp [set_viewport_shading_to_object_color, List.getElem?_map, hia, hv,
      find_setFirstView3DSpace _ hany]

/-- Witness for C9 at a concrete rejected context with one VIEW_3D area. -/
theorem rejected_still_sets_shading_witness :
    boneSelectionOk noSelectionCtx = false ∧
    ((bonePathExecute noSelectionCtx 0).areas[0]?).map
        (fun a2 => (a2.spaces.find? fun s => s.sptype == "VIEW_3D").map Space.shading)
      = some (some ⟨"SOLID", "OBJECT"⟩) :=
  ⟨rfl, (rejected_still_sets_shading noSelectionCtx 0 rfl).2.2.2.2.2 0
      ⟨"VIEW_3D", [⟨"VIEW_3D", ⟨"WIREFRAME", "MATERIAL"⟩⟩]⟩ rfl rfl rfl⟩

/-! ## C4: a reversed frame range is not rejected -/

/-- A mesh active object whose world translation is linear in the frame. -/
def linearMotionObject : ActiveObject :=
  { objType := ObjType.MESH
    translation := fun f => ⟨(f : ℚ), 0, 0⟩
    matrix_world := fun v => v
    vertexCo := fun _ => ⟨0, 0, 0⟩
    vertSelect := [true]
    boneHead := fun _ _ => ⟨0, 0, 0⟩ }

/-- A context whose explicit frame range is reversed: start 5, end 3. -/
def reversedRangeCtx : Context :=
  { active_object := some linearMotionObject
    active_pose_bone := none
    scene_frame_start := 1
    scene_frame_end := 3
    settings :=
      { use_timeline := false
        start_frame := 5
        end_frame := 3
        icosphere_radius := 1
        icosphere_color := ⟨1, 0, 1⟩ }
    scene_objects := []
    screen_areas := [] }

/-- Counterexample to C4: with explicit range start 5 > end 3 the object
entry point does not reject the request — it links a path-tagged curve and
the marker-tagged template into the previously empty scene. -/
theorem reversed_range_not_rejected :
    ((objectPathExecute reversedRangeCtx 0).scene.any fun o => o.pathTagKey) = true ∧
    ((objectPathExecute reversedRangeCtx 0).scene.any isMarkerTagged) = true ∧
    (objectPathExecute reversedRangeCtx 0).scene.length = 2 ∧
    reversedRangeCtx.scene_objects.length = 0 :=
  ⟨rfl, rfl, rfl, rfl⟩

/-- Helper: an empty frame range. -/
lemma intRange_eq_nil (a b : Int) (h : b < a) : intRange a b = [] := by
  unfold intRange
  have h0 : (b + 1 - a).toNat = 0 := by omega
  rw [h0]
  rfl

/-- Helper: the object entry point on a matching selection appends exactly
the objects `create_motion_path` linked. -/
lemma objectPathExecute_hit (ctx : Context) (fresh : Nat) (a : ActiveObject)
    (ha : ctx.active_object = some a)
    (hmem : a.objType ∈ [ObjType.MESH, ObjType.CURVE, ObjType.SURFACE, ObjType.FONT]) :
    (objectPathExecute ctx fresh).scene = ctx.scene_objects ++
      (create_motion_path fresh ctx.settings a (get_frame_range ctx).1
        (get_frame_range ctx).2 a.matrix_world 0 "" false).linkedObjects := by
  unfold objectPathExecute
  rw [ha]
  simp [hmem]

/-- C4 amended: for a frame range with start > end the entry point does not
reject; `create_motion_path` still runs, linking the marker template and
the tagged path curve into the scene, while the sampling loop body runs
zero times, so no marker instance is created. -/
theorem reversed_range_creates_template_and_curve (ctx : Context) (fresh : Nat)
    (a : ActiveObject) (ha : ctx.active_object = some a)
    (hok : objectSelectionOk ctx = true)
    (hr : (get_frame_range ctx).2 < (get_frame_range ctx).1) :
    (objectPathExecute ctx fresh).scene =
      ctx.scene_objects ++
        [(create_motion_path fresh ctx.settings a (get_frame_range ctx).1
            (get_frame_range ctx).2 a.matrix_world 0 "" false).baseSphere,
          (create_motion_path fresh ctx.settings a (get_frame_range ctx).1
            (get_frame_range ctx).2 a.matrix_world 0 "" false).curveObj] ∧
    (create_motion_path fresh ctx.settings a (get_frame_range ctx).1
        (get_frame_range ctx).2 a.matrix_world 0 "" false).instances = [] ∧
    isMarkerTagged
      (create_motion_path fresh ctx.settings a (get_frame_range ctx).1
        (get_frame_range ctx).2 a.matrix_world 0 "" false).baseSphere = true ∧
    (create_motion_path fresh ctx.settings a (get_frame_range ctx).1
        (get_frame_range ctx).2 a.matrix_world 0 "" false).curveObj.pathTagKey
      = true := by
  have hinst : (create_motion_path fresh ctx.settings a (get_frame_range ctx).1
      (get_frame_range ctx).2 a.matrix_world 0 "" false).instances = [] := by
    unfold create_motion_path
    rw [intRange_eq_nil _ _ hr]
    rfl
  have hmem : a.objType ∈ [ObjType.MESH, ObjType.CURVE, ObjType.SURFACE, ObjType.FONT] := by
    unfold objectSelectionOk at hok
    rw [ha] at hok
    exact of_decide_eq_true (by simpa using hok)
  refine ⟨?_, hinst, rfl, rfl⟩
  rw [objectPathExecute_hit ctx fresh a ha hmem]
  unfold CMPOut.linkedObjects
  rw [hinst]

/-- Witness for the amended C4 at the concrete reversed-range context. -/
theorem reversed_range_creates_template_and_curve_witness :
    objectSelectionOk reversedRangeCtx = true ∧
    (get_frame_range reversedRangeCtx).2 < (get_frame_range reversedRangeCtx).1 ∧
    (create_motion_path 0 reversedRangeCtx.settings linearMotionObject
        (get_frame_range reversedRangeCtx).1 (get_frame_range reversedRangeCtx).2
        linearMotionObject.matrix_world 0 "" false).instances = [] :=
  ⟨rfl, by decide,
    (reversed_range_creates_template_and_curve reversedRangeCtx 0 linearMotionObject
        rfl rfl (by decide)).2.1⟩

/-! ## Cleanup behaviour (C5, C6, C10) -/

/-- Helper: deleting each collected object by name is a filter by name. -/
lemma foldl_removeByName (S L : List Obj) :
    S.foldl (fun acc o => removeByName acc o.name) L
      = L.filter fun q => !(S.any fun o => o.name == q.name) := by
  induction S generalizing L with
  | nil => simp
  | cons s S ih =>
    rw [List.foldl_cons, ih]
    unfold removeByName
    rw [List.filter_filter]
    apply List.filter_congr
    intro q _
    rw [List.any_cons]
    cases hqs : (q.name == s.name) with
    | true =>
      have hsq : (s.name == q.name) = true := by
        rw [beq_iff_eq] at hqs ⊢
        omega
      simp [hsq, hqs, bne]
    | false =>
      have hsq : (s.name == q.name) = false := by
        rw [beq_eq_false_iff_ne] at hqs ⊢
        omega
      simp [hsq, hqs, bne]

/-- Helper: the existence-guarded curve deletion pass is equivalent to the
unguarded one (deleting an already-absent name is a no-op). -/
lemma guardedFoldl_removeByName (C L : List Obj) :
    C.foldl (fun acc c =>
        if acc.any (fun q => q.name == c.name) then removeByName acc c.name else acc) L
      = C.foldl (fun acc c => removeByName acc c.name) L := by
  induction C generalizing L with
  | nil => rfl
  | cons c C ih =>
    rw [List.foldl_cons, List.foldl_cons]
    by_cases h : L.any (fun q => q.name == c.name) = true
    · rw [if_pos h]
      exact ih _
    · rw [if_neg h]
      have hnone : removeByName L c.name = L := by
        apply List.filter_eq_self.mpr
        intro q hq
        have hfalse : (q.name == c.name) = false := by
          rcases Bool.eq_false_or_eq_true (q.name == c.name) with h1 | h1
          · exact absurd (List.any_eq_true.mpr ⟨q, hq, h1⟩) h
          · exact h1
        simp [bne, hfalse]
      rw [hnone]
      exact ih _

/-- Helper: cleanup equals a double filter by the collected sets' names. -/
lemma cleanupExecute_eq_filter (objs : List Obj) :
    cleanupExecute objs =
      (objs.filter fun q => !((collectSpheres objs).any fun o => o.name == q.name)).filter
        fun q => !((collectCurves objs).any fun o => o.name == q.name) := by
  unfold cleanupExecute
  rw [guardedFoldl_removeByName, foldl_removeByName, foldl_removeByName]

/-- Helper: unique names make name equality injective on the scene. -/
lemma eq_of_name_eq (objs : List Obj) (hnd : (objs.map Obj.name).Nodup)
    (x y : Obj) (hx : x ∈ objs) (hy : y ∈ objs) (h : x.name = y.name) : x = y :=
  List.inj_on_of_nodup_map hnd hx hy h

/-- Helper: membership in the first collection pass. -/
lemma mem_collectSpheres (objs : List Obj) (o : Obj) :
    o ∈ collectSpheres objs ↔ o ∈ objs ∧ isMarkerTagged o = true := by
  unfold collectSpheres
  simp [List.mem_filter]

/-- Helper: parent lookup when the parent link is set. -/
lemma parentLookup_of_parent_some (objs : List Obj) (o : Obj) (p : Nat)
    (h : o.parent = some p) :
    parentLookup objs o = objs.find? fun q => q.name == p := by
  unfold parentLookup
  rw [h]

/-- Helper: parent lookup when there is no parent link. -/
lemma parentLookup_of_parent_none (objs : List Obj) (o : Obj)
    (h : o.parent = none) :
    parentLookup objs o = none := by
  unfold parentLookup
  rw [h]

/-- Helper: membership in the second collection pass, under unique names:
the collected curves are exactly the scene objects that carry the path-tag
key and have some truthy-tagged marker parented to them. -/
lemma mem_collectCurves (objs : List Obj) (hnd : (objs.map Obj.name).Nodup) (c : Obj) :
    c ∈ collectCurves objs ↔ c ∈ objs ∧ collectedAsParent objs c = true := by
  unfold collectCurves
  constructor
  · intro h
    rcases List.mem_filterMap.mp h with ⟨m, hm, hmc⟩
    rcases (mem_collectSpheres objs m).mp hm with ⟨hmobjs, hmtag⟩
    cases hpar : m.parent with
    | none =>
      rw [parentLookup_of_parent_none objs m hpar] at hmc
      simp at hmc
    | some p =>
      rw [parentLookup_of_parent_some objs m p hpar] at hmc
      cases hfind : objs.find? (fun q => q.name == p) with
      | none =>
        rw [hfind] at hmc
        simp at hmc
      | some q =>
        rw [hfind] at hmc
        have hqobjs : q ∈ objs := List.mem_of_find?_eq_some hfind
        have hqname : q.name = p := by
          have := List.find?_some hfind
          simpa using this
        have hmc2 : (if q.pathTagKey = true then some q else none) = some c := hmc
        by_cases hkey : q.pathTagKey = true
        · rw [if_pos hkey] at hmc2
          have hqc : q = c := by
            simpa using hmc2
          subst hqc
          refine ⟨hqobjs, ?_⟩
          unfold collectedAsParent
          rw [hkey, Bool.true_and]
          apply List.any_eq_true.mpr
          refine ⟨m, hmobjs, ?_⟩
          rw [hmtag, Bool.true_and, hpar, hqname]
          simp
        · rw [if_neg hkey] at hmc2
          simp at hmc2
  · intro h
    rcases h with ⟨hcobjs, hcap⟩
    unfold collectedAsParent at hcap
    rcases Bool.and_eq_true_iff.mp hcap with ⟨hckey, hany⟩
    rcases List.any_eq_true.mp hany with ⟨m, hmobjs, hmpred⟩
    rcases Bool.and_eq_true_iff.mp hmpred with ⟨hmtag, hmpar⟩
    have hmpar2 : m.parent = some c.name := by
      simpa using hmpar
    apply List.mem_filterMap.mpr
    refine ⟨m, (mem_collectSpheres objs m).mpr ⟨hmobjs, hmtag⟩, ?_⟩
    rw [parentLookup_of_parent_some objs m c.name hmpar2]
    have hex : (objs.find? fun q => q.name == c.name).isSome := by
      rw [List.find?_isSome]
      exact ⟨c, hcobjs, by simp⟩
    rcases Option.isSome_iff_exists.mp hex with ⟨q, hfind⟩
    rw [hfind]
    have hqobjs : q ∈ objs := List.mem_of_find?_eq_some hfind
    have hqname : q.name = c.name := by
      have := List.find?_some hfind
      simpa using this
    have hqc : q = c := eq_of_name_eq objs hnd q c hqobjs hcobjs hqname
    subst hqc
    show (if q.pathTagKey = true then some q else none) = some q
    rw [if_pos hckey]

/-- Helper: testing a scene member's name against the collected markers. -/
lemma any_collectSpheres_name (objs : List Obj) (hnd : (objs.map Obj.name).Nodup)
    (q : Obj) (hq : q ∈ objs) :
    ((collectSpheres objs).any fun o => o.name == q.name) = isMarkerTagged q := by
  cases ht : isMarkerTagged q with
  | true =>
    apply List.any_eq_true.mpr
    exact ⟨q, (mem_collectSpheres objs q).mpr ⟨hq, ht⟩, by simp⟩
  | false =>
    rcases Bool.eq_false_or_eq_true ((collectSpheres objs).any fun o => o.name == q.name)
      with h1 | h1
    swap
    · exact h1
    exfalso
    rcases List.any_eq_true.mp h1 with ⟨o, ho, hon⟩
    rcases (mem_collectSpheres objs o).mp ho with ⟨ho1, ho2⟩
    have hoq : o = q := eq_of_name_eq objs hnd o q ho1 hq (by simpa using hon)
    subst hoq
    rw [ht] at ho2
    exact Bool.false_ne_true ho2

/-- Helper: testing a scene member's name against the collected curves. -/
lemma any_collectCurves_name (objs : List Obj) (hnd : (objs.map Obj.name).Nodup)
    (q : Obj) (hq : q ∈ objs) :
    ((collectCurves objs).any fun o => o.name == q.name) = collectedAsParent objs q := by
  cases ht : collectedAsParent objs q with
  | true =>
    apply List.any_eq_true.mpr
    exact ⟨q, (mem_collectCurves objs hnd q).mpr ⟨hq, ht⟩, by simp⟩
  | false =>
    rcases Bool.eq_false_or_eq_true ((collectCurves objs).any fun o => o.name == q.name)
      with h1 | h1
    swap
    · exact h1
    exfalso
    rcases List.any_eq_true.mp h1 with ⟨o, ho, hon⟩
    rcases (mem_collectCurves objs hnd o).mp ho with ⟨ho1, ho2⟩
    have hoq : o = q := eq_of_name_eq objs hnd o q ho1 hq (by simpa using hon)
    subst hoq
    rw [ht] at ho2
    exact Bool.false_ne_true ho2

/-- C5: cleanup removes exactly the truthy-tagged markers together with the
scene objects that carry the path-tag key and have a collected marker
parented to them, and nothing else — stated as: the surviving scene is the
filter keeping every object that is neither a collected marker nor a
collected parent curve.  (The two-phase order and the existence guard are
part of the definition of `cleanupExecute`.) -/
theorem cleanup_removes_exactly_tagged (objs : List Obj)
    (hnd : (objs.map Obj.name).Nodup) :
    cleanupExecute objs =
      objs.filter fun o => !(isMarkerTagged o) && !(collectedAsParent objs o) := by
  rw [cleanupExecute_eq_filter, List.filter_filter]
  apply List.filter_congr
  intro q hq
  rw [any_collectSpheres_name objs hnd q hq, any_collectCurves_name objs hnd q hq,
    Bool.and_comm]

/-- Witness for C5 at a concrete scene: one marker parented to one tagged
curve, plus an untagged bystander. -/
theorem cleanup_removes_exactly_tagged_witness :
    (([markerFixture, curveFixture, plainFixture].map Obj.name).Nodup) ∧
    cleanupExecute [markerFixture, curveFixture, plainFixture] =
      [markerFixture, curveFixture, plainFixture].filter
        (fun o => !(isMarkerTagged o) &&
          !(collectedAsParent [markerFixture, curveFixture, plainFixture] o)) :=
  ⟨by decide, cleanup_removes_exactly_tagged _ (by decide)⟩

/-- Helper: a scene on which both collection passes come back empty is left
untouched by cleanup. -/
lemma cleanupExecute_of_collect_nil (L : List Obj)
    (h1 : collectSpheres L = []) (h2 : collectCurves L = []) :
    cleanupExecute L = L := by
  rw [cleanupExecute_eq_filter, h1, h2]
  simp

/-- C6: cleanup is idempotent — after one cleanup no truthy-tagged marker
remains, so a second invocation collects nothing and removes nothing. -/
theorem cleanup_idempotent (objs : List Obj) :
    collectSpheres (cleanupExecute objs) = [] ∧
    collectCurves (cleanupExecute objs) = [] ∧
    cleanupExecute (cleanupExecute objs) = cleanupExecute objs := by
  have hs : collectSpheres (cleanupExecute objs) = [] := by
    unfold collectSpheres
    rw [List.filter_eq_nil_iff]
    intro a ha
    rw [cleanupExecute_eq_filter] at ha
    have ha1 := (List.mem_filter.mp ha).1
    have ha2 := List.mem_filter.mp ha1
    intro hta
    have hmem : a ∈ collectSpheres objs := (mem_collectSpheres objs a).mpr ⟨ha2.1, hta⟩
    have hany : ((collectSpheres objs).any fun o => o.name == a.name) = true :=
      List.any_eq_true.mpr ⟨a, hmem, by simp⟩
    have := ha2.2
    rw [hany] at this
    simp at this
  have hc : collectCurves (cleanupExecute objs) = [] := by
    unfold collectCurves
    rw [hs]
    rfl
  exact ⟨hs, hc, cleanupExecute_of_collect_nil _ hs hc⟩

/-- C10: a path-tagged curve with no truthy-tagged marker parented to it is
never collected by cleanup's curve pass and survives cleanup. -/
theorem orphan_path_survives (objs : List Obj) (o : Obj)
    (hnd : (objs.map Obj.name).Nodup) (ho : o ∈ objs)
    (hm : isMarkerTagged o = false) (hp : o.pathTagKey = true)
    (hnochild : ∀ m ∈ objs, isMarkerTagged m = true → m.parent ≠ some o.name) :
    o ∉ collectCurves objs ∧ o ∈ cleanupExecute objs := by
  have hcap : collectedAsParent objs o = false := by
    unfold collectedAsParent
    rw [hp, Bool.true_and]
    rcases Bool.eq_false_or_eq_true
      (objs.any fun m => isMarkerTagged m && m.parent == some o.name) with h1 | h1
    swap
    · exact h1
    exfalso
    rcases List.any_eq_true.mp h1 with ⟨m, hmobjs, hmpred⟩
    rcases Bool.and_eq_true_iff.mp hmpred with ⟨hm1, hm2⟩
    exact hnochild m hmobjs hm1 (by simpa using hm2)
  refine ⟨?_, ?_⟩
  · intro hmem
    have hfacts := ((mem_collectCurves objs hnd o).mp hmem).2
    rw [hcap] at hfacts
    exact Bool.false_ne_true hfacts
  · rw [cleanupExecute_eq_filter]
    apply List.mem_filter.mpr
    refine ⟨List.mem_filter.mpr ⟨ho, ?_⟩, ?_⟩
    · rw [any_collectSpheres_name objs hnd o ho, hm]
      rfl
    · rw [any_collectCurves_name objs hnd o ho, hcap]
      rfl

/-- Witness for C10: a scene holding only a path-tagged curve with no
markers; cleanup leaves it in place. -/
theorem orphan_path_survives_witness :
    ([curveFixture].map Obj.name).Nodup ∧
    isMarkerTagged curveFixture = false ∧
    curveFixture.pathTagKey = true ∧
    (curveFixture ∉ collectCurves [curveFixture] ∧
      curveFixture ∈ cleanupExecute [curveFixture]) :=
  ⟨by decide, rfl, rfl,
    orphan_path_survives [curveFixture] curveFixture (by decide)
      (List.mem_singleton.mpr rfl) rfl rfl (by decide)⟩

/-! ## C1: object/empty sampling fills the whole path -/

/-- Helper: with `is_vertex = 0` and `is_bone = ""` (as in the object and
empty calls) the loop samples the object's world translation at every
frame, in both the `is_empty` and the general-object branch. -/
lemma sampleAt_translation (o : ActiveObject) (wm : Vec3 → Vec3) (ie : Bool) (f : Int) :
    sampleAt o wm 0 "" ie f = some (o.translation f) := by
  cases ie <;> simp [sampleAt]

/-- Helper: setting the element right after a prefix. -/
lemma set_append_length (A B : List Vec4) (v : Vec4) :
    (A ++ B).set A.length v = A ++ B.set 0 v := by
  rw [List.set_append, if_neg (lt_irrefl _), Nat.sub_self]

/-- Helper: the same, phrased through a length equation. -/
lemma set_append_of_length (A B : List Vec4) (v : Vec4) (k : Nat) (hA : A.length = k) :
    (A ++ B).set k v = A ++ B.set 0 v := by
  subst hA
  exact set_append_length A B v

/-- Helper: the sampling loop over frames `start .. start + n - 1` on an
always-sampled entity writes point `i` to the translation at frame
`start + i` and links one marker instance per frame, in frame order. -/
lemma loop_object_spec (o : ActiveObject) (wm : Vec3 → Vec3) (ie : Bool) (base : Obj)
    (cn : Nat) (start : Int) (N : Nat) (insts0 : List Obj) (fr0 : Nat) (n : Nat) :
    n ≤ N →
    ((List.range n).map fun i : Nat => start + (i : Int)).foldl
        (pathStep o wm 0 "" ie base cn start)
        ⟨List.replicate N ⟨0, 0, 0, 1⟩, insts0, fr0⟩
      = ⟨((List.range n).map fun i : Nat => vec4Of (o.translation (start + (i : Int)))) ++
            List.replicate (N - n) ⟨0, 0, 0, 1⟩,
          insts0 ++ ((List.range n).map fun i : Nat =>
            sphereInstance base (fr0 + i) cn (o.translation (start + (i : Int)))),
          fr0 + n⟩ := by
  induction n with
  | zero => intro _; simp
  | succ n ih =>
    intro hnN
    have hn : n ≤ N := Nat.le_of_succ_le hnN
    have hlt : n < N := hnN
    rw [List.range_succ, List.map_append, List.foldl_append, ih hn]
    simp only [List.map_cons, List.map_nil, List.foldl_cons, List.foldl_nil]
    unfold pathStep
    rw [sampleAt_translation]
    simp only [LoopState.mk.injEq]
    refine ⟨?_, ?_, ?_⟩
    · have hidx : ((start + (n : Int)) - start).toNat = n := by omega
      have hlen : ((List.range n).map fun i : Nat =>
          vec4Of (o.translation (start + (i : Int)))).length = n := by
        rw [List.length_map, List.length_range]
      rw [hidx, set_append_of_length _ _ _ n hlen]
      have hNn : N - n = (N - (n + 1)) + 1 := by omega
      rw [hNn, List.replicate_succ, List.set_cons_zero]
      simp [List.append_assoc]
    · simp [List.append_assoc]
    · omega

/-- C1: for `start ≤ end`, building a path with the object or empty dispatch
(`is_vertex = 0`, `is_bone = ""`) yields a curve with exactly
`end - start + 1` control points and exactly that many marker instances;
point `i` is the world translation sampled at frame `start + i` (with
homogeneous coordinate 1) and marker `i`'s location is that same sample. -/
theorem object_empty_path_samples (fresh : Nat) (settings : Settings)
    (o : ActiveObject) (wm : Vec3 → Vec3) (start_frame end_frame : Int) (ie : Bool)
    (h : start_frame ≤ end_frame) :
    ((create_motion_path fresh settings o start_frame end_frame wm 0 "" ie).curveObj.points.length
        = (end_frame - start_frame + 1).toNat) ∧
    ((create_motion_path fresh settings o start_frame end_frame wm 0 "" ie).instances.length
        = (end_frame - start_frame + 1).toNat) ∧
    ∀ i : Nat, i < (end_frame - start_frame + 1).toNat →
      ((create_motion_path fresh settings o start_frame end_frame wm 0 "" ie).curveObj.points[i]?
          = some (vec4Of (o.translation (start_frame + (i : Int))))) ∧
      (((create_motion_path fresh settings o start_frame end_frame wm 0 "" ie).instances[i]?).map
          Obj.location = some (o.translation (start_frame + (i : Int)))) := by
  have hN : 1 + (end_frame - start_frame).toNat = (end_frame - start_frame + 1).toNat := by
    omega
  have hR : intRange start_frame end_frame
      = (List.range (end_frame - start_frame + 1).toNat).map
          fun i : Nat => start_frame + (i : Int) := by
    unfold intRange
    have heq : (end_frame + 1 - start_frame).toNat
        = (end_frame - start_frame + 1).toNat := by omega
    rw [heq]
  have hfold := loop_object_spec o wm ie
    (create_base_icosphere fresh settings.icosphere_radius settings.icosphere_color)
    (fresh + 1) start_frame (end_frame - start_frame + 1).toNat []
    (fresh + 2) (end_frame - start_frame + 1).toNat (le_refl _)
  have hpoints : (create_motion_path fresh settings o start_frame end_frame wm 0 ""
      ie).curveObj.points
      = (List.range (end_frame - start_frame + 1).toNat).map
          fun i : Nat => vec4Of (o.translation (start_frame + (i : Int))) := by
    show (List.foldl
        (pathStep o wm 0 "" ie
          (create_base_icosphere fresh settings.icosphere_radius settings.icosphere_color)
          (fresh + 1) start_frame)
        ⟨List.replicate (1 + (end_frame - start_frame).toNat) ⟨0, 0, 0, 1⟩, [], fresh + 2⟩
        (intRange start_frame end_frame)).points = _
    rw [hR, hN, hfold]
    simp
  have hinsts : (create_motion_path fresh settings o start_frame end_frame wm 0 ""
      ie).instances
      = (List.range (end_frame - start_frame + 1).toNat).map
          fun i : Nat => sphereInstance
            (create_base_icosphere fresh settings.icosphere_radius settings.icosphere_color)
            (fresh + 2 + i) (fresh + 1) (o.translation (start_frame + (i : Int))) := by
    show (List.foldl
        (pathStep o wm 0 "" ie
          (create_base_icosphere fresh settings.icosphere_radius settings.icosphere_color)
          (fresh + 1) start_frame)
        ⟨List.replicate (1 + (end_frame - start_frame).toNat) ⟨0, 0, 0, 1⟩, [], fresh + 2⟩
        (intRange start_frame end_frame)).instances = _
    rw [hR, hN, hfold]
    simp
  refine ⟨?_, ?_, ?_⟩
  · rw [hpoints, List.length_map, List.length_range]
  · rw [hinsts, List.length_map, List.length_range]
  · intro i hi
    constructor
    · rw [hpoints, List.getElem?_map]
      simp [List.getElem?_range hi]
    · rw [hinsts, List.getElem?_map]
      simp [List.getElem?_range hi, sphereInstance]

/-- Witness for C1: range 1..3 on an object with translation linear in the
frame. -/
theorem object_empty_path_samples_witness :
    (1 : Int) ≤ 3 ∧
    (((create_motion_path 0 settingsFixture linearMotionObject 1 3
        linearMotionObject.matrix_world 0 "" false).curveObj.points.length
          = ((3 : Int) - 1 + 1).toNat) ∧
      ((create_motion_path 0 settingsFixture linearMotionObject 1 3
        linearMotionObject.matrix_world 0 "" false).instances.length
          = ((3 : Int) - 1 + 1).toNat) ∧
      ∀ i : Nat, i < ((3 : Int) - 1 + 1).toNat →
        ((create_motion_path 0 settingsFixture linearMotionObject 1 3
            linearMotionObject.matrix_world 0 "" false).curveObj.points[i]?
            = some (vec4Of (linearMotionObject.translation (1 + (i : Int))))) ∧
        (((create_motion_path 0 settingsFixture linearMotionObject 1 3
            linearMotionObject.matrix_world 0 "" false).instances[i]?).map
            Obj.location = some (linearMotionObject.translation (1 + (i : Int))))) :=
  ⟨by decide,
    object_empty_path_samples 0 settingsFixture linearMotionObject
      linearMotionObject.matrix_world 1 3 false (by decide)⟩

/-! ## C2: vertex sampling and the index-zero dispatch slip -/

/-- A mesh active object whose world translation differs from every
transformed vertex position. -/
def meshProbe : ActiveObject :=
  { objType := ObjType.MESH
    translation := fun _ => ⟨5, 5, 5⟩
    matrix_world := fun v => v
    vertexCo := fun _ => ⟨1, 2, 3⟩
    vertSelect := [true, true]
    boneHead := fun _ _ => ⟨0, 0, 0⟩ }

/-- An active object that is not a mesh. -/
def nonMeshProbe : ActiveObject :=
  { objType := ObjType.EMPTY
    translation := fun _ => ⟨9, 9, 9⟩
    matrix_world := fun v => v
    vertexCo := fun _ => ⟨1, 2, 3⟩
    vertSelect := []
    boneHead := fun _ _ => ⟨0, 0, 0⟩ }

/-- C2 evaluated at the failing input: when the first selected vertex has
index 0, the operator passes `is_vertex = 0`, which Python treats as falsy
(`False == 0`), so the `elif is_vertex:` dispatch skips the vertex branch
and the sampler returns the object's world translation instead of
`world_matrix × vertices[0].co`.  For a nonzero index the vertex branch
behaves as the claim states: mesh hosts yield the transformed vertex
position and non-mesh hosts are silently skipped (`none`, no error). -/
theorem vertex_index_zero_bug :
    firstSelectedIndex meshProbe.vertSelect = some 0 ∧
    meshProbe.objType = ObjType.MESH ∧
    sampleAt meshProbe meshProbe.matrix_world 0 "" false 7 = some ⟨5, 5, 5⟩ ∧
    meshProbe.matrix_world (meshProbe.vertexCo 0) = ⟨1, 2, 3⟩ ∧
    sampleAt meshProbe meshProbe.matrix_world 0 "" false 7
      ≠ some (meshProbe.matrix_world (meshProbe.vertexCo 0)) ∧
    (∀ f : Int, sampleAt meshProbe meshProbe.matrix_world 1 "" false f
      = some (meshProbe.matrix_world (meshProbe.vertexCo 1))) ∧
    (∀ f : Int, sampleAt nonMeshProbe nonMeshProbe.matrix_world 1 "" false f = none) := by
  refine ⟨rfl, rfl, rfl, rfl, ?_, fun f => rfl, fun f => rfl⟩
  intro hcontra
  have h5 : (5 : ℚ) = 1 := congrArg Vec3.x (Option.some.inj hcontra)
  norm_num at h5

end MotionPath
